import Mathlib

/-!
Shallow embedding of `src/label.py` (a VirusTotal-report labeling tool).

The script walks an input directory, processes every `*.json` file in a
thread pool (`Labeler.process_json`), optionally enriches each record with a
family label obtained by shelling out to `avclass`, sorts the collected rows
by file name and writes a comma-separated report (`Labeler.label_files`).

Python values parsed from JSON are modelled by the inductive `Json`
(numbers restricted to integers; floating point is out of scope of the
claims).  Fallible I/O steps (reading a file, creating/writing the temporary
artifact, running the subprocess) are modelled by explicit outcome fields in
`FileEntry`/`EnrichEnv`, so that every run of the script corresponds to one
choice of those outcomes; the nondeterministic completion order of the
thread pool is modelled by quantifying over permutations of the collected
result list.
-/

namespace VTLabel

/-- A JSON value as produced by Python's `json.load`.  Numbers are
restricted to integers (the claims never involve floating point);
`obj` keeps the key/value pairs in file order — `json.load` builds a
`dict`, so a duplicated key keeps its *last* occurrence (see `dictGet`). -/
inductive Json where
  | null : Json
  | bool : Bool → Json
  | num : Int → Json
  | str : String → Json
  | arr : List Json → Json
  | obj : List (String × Json) → Json

/-- The two Python exception classes that matter for subscript lookups:
`d[k]` raises `KeyError` when `d` is a dict without key `k`, and
`TypeError` when `d` is not a dict at all (string/list/int/None/bool). -/
inductive PyErr where
  | keyError : PyErr
  | typeError : PyErr
deriving DecidableEq

/-- Lookup in a Python dict built by `json.load`: a duplicated key in the
source text keeps the last occurrence. -/
def dictGet (kvs : List (String × Json)) (k : String) : Option Json :=
  (kvs.reverse.find? (fun p => p.1 == k)).map (fun p => p.2)

/-- Python subscript `v[k]` for a string key `k`: `KeyError` on a missing
dict key, `TypeError` on any non-dict value. -/
def Json.getItem : Json → String → Except PyErr Json
  | .obj kvs, k =>
    match dictGet kvs k with
    | some v => .ok v
    | none => .error .keyError
  | _, _ => .error .typeError

/-- The nested lookup `data["additional_info"]["gandelf"]["header"]["machine"]`
from `process_json` (label.py line 144). -/
def cpuLookup (data : Json) : Except PyErr Json :=
  data.getItem "additional_info" |>.bind (fun a => a.getItem "gandelf")
    |>.bind (fun a => a.getItem "header") |>.bind (fun a => a.getItem "machine")

/-- Python truthiness of a JSON-derived value (`bool(v)`): `None`, `False`,
`0`, `""`, `[]` and `{}` are falsy, everything else truthy. -/
def pyTruthy : Json → Bool
  | .null => false
  | .bool b => b
  | .num n => !(n == 0)
  | .str s => !(s == "")
  | .arr xs => !xs.isEmpty
  | .obj kvs => !kvs.isEmpty

/-- Python's `repr` of a string: wrapped in single quotes, or in double
quotes when the string contains a single quote but no double quote; the
backslash, the wrapping quote and the common control characters are
escaped.  (Escaping of other control characters is not modelled; no claim
depends on it.) -/
def pyReprStr (s : String) : String :=
  let useDouble := s.contains '\'' && !(s.contains '"')
  let q : Char := if useDouble then '"' else '\''
  let esc := s.data.map (fun c =>
    if c = '\\' then "\\\\"
    else if c = q then "\\" ++ String.singleton q
    else if c = '\n' then "\\n"
    else if c = '\r' then "\\r"
    else if c = '\t' then "\\t"
    else String.singleton c)
  String.singleton q ++ String.join esc ++ String.singleton q

mutual

/-- Python's `repr` of a value parsed from JSON. -/
def pyRepr : Json → String
  | .null => "None"
  | .bool true => "True"
  | .bool false => "False"
  | .num n => toString n
  | .str s => pyReprStr s
  | .arr xs => "[" ++ String.intercalate ", " (pyReprList xs) ++ "]"
  | .obj kvs => "\x7b" ++ String.intercalate ", " (pyReprPairs kvs) ++ "\x7d"

/-- Python `repr` of the elements of a list. -/
def pyReprList : List Json → List String
  | [] => []
  | x :: xs => pyRepr x :: pyReprList xs

/-- Python `repr` of the key/value pairs of a dict. -/
def pyReprPairs : List (String × Json) → List String
  | [] => []
  | (k, v) :: xs => (pyReprStr k ++ ": " ++ pyRepr v) :: pyReprPairs xs

end

/-- Python's `str` of a value parsed from JSON: the string itself for
strings, otherwise the same text as `repr` (`str(10)` is `"10"`,
`str(None)` is `"None"`, containers use their `repr`). -/
def pyStr : Json → String
  | .str s => s
  | v => pyRepr v

/-- Helper for `pySplit`: walk the characters, accumulating the current
token in reverse. -/
def pySplitAux : List Char → List Char → List String
  | [], acc => if acc.isEmpty then [] else [String.mk acc.reverse]
  | c :: cs, acc =>
    if c.isWhitespace then
      if acc.isEmpty then pySplitAux cs []
      else String.mk acc.reverse :: pySplitAux cs []
    else pySplitAux cs (c :: acc)

/-- Python's `str.split()` with no argument: split on runs of whitespace,
discarding empty tokens. -/
def pySplit (s : String) : List String := pySplitAux s.data []

/-- Python's `str.endswith`: the string ends with the given pattern. -/
def strEndsWith (s pat : String) : Bool := pat.data.isSuffixOf s.data

/-- The five boolean field toggles of the `Config` object (label.py 13-32).
The derived output/log paths play no role in the claims and are omitted. -/
structure Config where
  family : Bool
  cpu : Bool
  first_seen : Bool
  size : Bool
  md5 : Bool

/-- Why reading a record can fail: `json.JSONDecodeError` from `json.load`,
or any other exception while opening/reading the file. -/
inductive ReadErr where
  | parseError : ReadErr
  | ioError : ReadErr
deriving DecidableEq

/-- Outcome of `subprocess.run(command, shell=True, check=True, ...)`
(label.py line 132): normal completion with captured stdout (with
`check=True` a completed run always has return code 0, so the
`returncode == 0` test on line 133 is always true), a
`subprocess.CalledProcessError` for a non-zero exit, or any other
exception while launching/running the command. -/
inductive SubprocOutcome where
  | ok : String → SubprocOutcome
  | calledProcessError : SubprocOutcome
  | otherError : SubprocOutcome
deriving DecidableEq

/-- Environment of one enrichment attempt: which of the fallible I/O steps
of the family block (label.py 123-140) succeed.
`serializeOk` — `convert_to_one_line` returns a string rather than `None`;
`tmpOpenOk` — `open(json_file + ".tmp", "w")` succeeds (the file is created);
`tmpWriteOk` — `tmp_file.write(...)` succeeds;
`subproc` — outcome of the `avclass` subprocess invocation. -/
structure EnrichEnv where
  serializeOk : Bool
  tmpOpenOk : Bool
  tmpWriteOk : Bool
  subproc : SubprocOutcome

/-- One file found by the directory walk: its directory, its base name,
the outcome of opening and parsing it, and the enrichment environment
used if the family block runs on it. -/
structure FileEntry where
  dir : String
  base : String
  content : Except ReadErr Json
  enrich : EnrichEnv

/-- Model of `os.path.join(root, file)` for the walked file. -/
def FileEntry.path (f : FileEntry) : String := f.dir ++ "/" ++ f.base

/-- The result tuple of `process_json` (label.py line 171). -/
structure Row where
  file_name : String
  family : Option String
  cpu : Option Json
  first_seen : Option Json
  size : Option Json
  md5 : Option Json

/-- Result of the family block (label.py 123-140): the family value, whether
the `.tmp` artifact is left on disk afterwards, the error-log lines
written, and whether an exception escaped the block (to be caught by the
outer handler of `process_json`). -/
structure FamOut where
  family : Option String
  tmpLeft : Bool
  log : List String
  aborted : Bool

/-- The family block of `process_json` (label.py 123-140).

* `convert_to_one_line` returning `None` is logged (twice: once inside
  `convert_to_one_line`, once on line 126) and skips the block;
* a failure of `open(json_file + ".tmp", "w")` raises out of the block
  before any artifact exists;
* a failure of `tmp_file.write` raises out of the block *after* the
  artifact was created, and the `try/finally` of lines 131-140 is never
  entered, so the artifact stays on disk;
* once the artifact is written, the subprocess runs inside
  `try ... finally os.remove(json_file + ".tmp")`: the artifact is removed
  on every outcome, and on success the family is the second
  whitespace-delimited token of stdout (`result.stdout.split()[1]`,
  an out-of-range index raising `IndexError` which the generic
  `except Exception` handler of line 137 catches). -/
def familyStep (path : String) (env : EnrichEnv) : FamOut :=
  if env.serializeOk = false then
    { family := none, tmpLeft := false,
      log := ["Error decoding JSON file (" ++ path ++ ")", "Processing " ++ path],
      aborted := false }
  else if env.tmpOpenOk = false then
    { family := none, tmpLeft := false, log := [], aborted := true }
  else if env.tmpWriteOk = false then
    { family := none, tmpLeft := true, log := [], aborted := true }
  else
    match env.subproc with
    | .ok out =>
      match (pySplit out)[1]? with
      | some tok => { family := some tok, tmpLeft := false, log := [], aborted := false }
      | none =>
        { family := none, tmpLeft := false,
          log := ["AVClass processing error (" ++ path ++ ")"], aborted := false }
    | .calledProcessError =>
      { family := none, tmpLeft := false,
        log := ["AVClass command execution error (" ++ path ++ ")"], aborted := false }
    | .otherError =>
      { family := none, tmpLeft := false,
        log := ["AVClass processing error (" ++ path ++ ")"], aborted := false }

/-- The four optional field values extracted on label.py 142-164. -/
structure Fields where
  cpu : Option Json
  first_seen : Option Json
  size : Option Json
  md5 : Option Json

/-- One `if self.config.X: try ... except KeyError: pass` block
(label.py 142-164).  Returns the extracted value together with a flag
telling whether a non-`KeyError` exception escaped the block (only
`KeyError` is caught there; a `TypeError` from subscripting a non-dict
propagates to the outer handler of `process_json`). -/
def fieldStep (enabled : Bool) (look : Except PyErr Json) : Option Json × Bool :=
  if enabled then
    match look with
    | .ok v => (some v, false)
    | .error .keyError => (none, false)
    | .error .typeError => (none, true)
  else (none, false)

/-- The four field blocks of label.py 142-164 run in order; a block that
raises a non-`KeyError` exception aborts the remaining blocks (their
values stay `None`), and the returned flag reports that abort. -/
def extractFields (cfg : Config) (data : Json) : Fields × Bool :=
  let c := fieldStep cfg.cpu (cpuLookup data)
  if c.2 then (⟨c.1, none, none, none⟩, true)
  else
    let fs := fieldStep cfg.first_seen (data.getItem "first_seen")
    if fs.2 then (⟨c.1, fs.1, none, none⟩, true)
    else
      let sz := fieldStep cfg.size (data.getItem "size")
      if sz.2 then (⟨c.1, fs.1, sz.1, none⟩, true)
      else
        let m := fieldStep cfg.md5 (data.getItem "md5")
        (⟨c.1, fs.1, sz.1, m.1⟩, m.2)

/-- Everything observable about one `process_json` call: the returned row,
whether a `.tmp` artifact is left behind, and the error-log lines. -/
structure ProcOut where
  row : Row
  tmpLeft : Bool
  log : List String

/-- Model of `Labeler.process_json` (label.py 105-171).  The whole body sits in a
`try` whose handlers (lines 166-169) log and fall through to the final
`return`, so the function always returns a row — also for files that fail
to read or parse (every field `None` then). -/
def process_json (cfg : Config) (f : FileEntry) : ProcOut :=
  let name := f.base.dropRight 5
  match f.content with
  | .error .parseError =>
    { row := ⟨name, none, none, none, none, none⟩, tmpLeft := false,
      log := ["Error decoding JSON file (" ++ f.path ++ ")"] }
  | .error .ioError =>
    { row := ⟨name, none, none, none, none, none⟩, tmpLeft := false,
      log := ["Error processing JSON file (" ++ f.path ++ ")"] }
  | .ok data =>
    let fam := if cfg.family then familyStep f.path f.enrich
               else { family := none, tmpLeft := false, log := [], aborted := false }
    if fam.aborted then
      { row := ⟨name, none, none, none, none, none⟩, tmpLeft := fam.tmpLeft,
        log := fam.log ++ ["Error processing JSON file (" ++ f.path ++ ")"] }
    else
      let ex := extractFields cfg data
      { row := ⟨name, fam.family, ex.1.cpu, ex.1.first_seen, ex.1.size, ex.1.md5⟩,
        tmpLeft := fam.tmpLeft,
        log := fam.log ++
          (if ex.2 then ["Error processing JSON file (" ++ f.path ++ ")"] else []) }

/-- Lexicographic comparison of code-point sequences, as Python compares
strings: `charListLe a b` is `a <= b`. -/
def charListLe : List Char → List Char → Bool
  | [], _ => true
  | _ :: _, [] => false
  | a :: as, b :: bs =>
    if a < b then true
    else if b < a then false
    else charListLe as bs

/-- Python string comparison `a <= b` (lexicographic by code point). -/
def pyStrLe (a b : String) : Bool := charListLe a.data b.data

/-- The sort key relation of `labels.sort(key=lambda x: x[0])`
(label.py line 190): compare rows by their `file_name` string. -/
def rowLe (a b : Row) : Prop := pyStrLe a.file_name b.file_name = true

instance : DecidableRel rowLe := fun a b =>
  inferInstanceAs (Decidable (pyStrLe a.file_name b.file_name = true))

/-- Model of `labels.sort(key=lambda x: x[0])` (label.py line 190): a stable sort by
the file-name key.  Python's sort is stable, and every stable sort by the
same key produces the same list, so insertion sort by `rowLe` is an exact
model of it. -/
def sortLabels (labels : List Row) : List Row := List.insertionSort rowLe labels

/-- The header row (label.py 192-203): `file_name` plus the requested
columns in the fixed order family, CPU, first_seen, size, md5. -/
def header (cfg : Config) : List String :=
  ["file_name"]
    ++ (if cfg.family then ["family"] else [])
    ++ (if cfg.cpu then ["CPU"] else [])
    ++ (if cfg.first_seen then ["first_seen"] else [])
    ++ (if cfg.size then ["size"] else [])
    ++ (if cfg.md5 then ["md5"] else [])

/-- The header line `",".join(header)` (label.py line 206). -/
def headerLine (cfg : Config) : String := String.intercalate "," (header cfg)

/-- Model of `label or ''` for the family value, which is `None` or a `str`:
`None` and `''` are falsy and yield `''`; any other string yields itself
(so the result is always the string, with `None` becoming `''`). -/
def famCell : Option String → String
  | none => ""
  | some s => s

/-- Model of `label[i] or ''` for the cpu/first_seen/md5 values followed by
`",".join(row)` (label.py 210-219): `None` and falsy values ( `''`, `0`,
`False`, `[]`, `{}` ) yield the empty cell; a truthy string is the cell
text; any other truthy value survives `or` unchanged and then makes
`",".join` raise `TypeError` (modelled as `.error ()`). -/
def pyCell : Option Json → Except Unit String
  | none => .ok ""
  | some v =>
    if pyTruthy v then
      match v with
      | .str s => .ok s
      | _ => .error ()
    else .ok ""

/-- Model of `str(label[4]) if label[4] is not None else ''` (label.py
line 216).  A JSON `null` value reaches the Python variable as `None`, so
the `is not None` guard treats a present-but-null size exactly like an
absent one and renders the empty string, never `"None"`. -/
def sizeCell : Option Json → String
  | none => ""
  | some .null => ""
  | some v => pyStr v

/-- The cells of one output row (label.py 208-218), in header order;
`.error ()` models the `TypeError` raised by `",".join(row)` when a truthy
non-string value was appended. -/
def renderCells (cfg : Config) (r : Row) : Except Unit (List String) :=
  match (if cfg.cpu then pyCell r.cpu else .ok ""),
        (if cfg.first_seen then pyCell r.first_seen else .ok ""),
        (if cfg.md5 then pyCell r.md5 else .ok "") with
  | .ok cC, .ok cF, .ok cM =>
    .ok ([r.file_name]
      ++ (if cfg.family then [famCell r.family] else [])
      ++ (if cfg.cpu then [cC] else [])
      ++ (if cfg.first_seen then [cF] else [])
      ++ (if cfg.size then [sizeCell r.size] else [])
      ++ (if cfg.md5 then [cM] else []))
  | _, _, _ => .error ()

/-- Model of `",".join(row)` for one output row (label.py line 219). -/
def renderRow (cfg : Config) (r : Row) : Except Unit String :=
  (renderCells cfg r).map (String.intercalate ",")

/-- Sequential rendering of the sorted rows, stopping at the first
`TypeError` — in the script the loop of lines 207-219 raises there and the
report write aborts. -/
def mapExcept (f : α → Except ε β) : List α → Except ε (List β)
  | [] => .ok []
  | a :: as =>
    match f a with
    | .error e => .error e
    | .ok b =>
      match mapExcept f as with
      | .error e => .error e
      | .ok bs => .ok (b :: bs)

/-- Model of the `Labeler.label_files` writing phase (label.py 189-219): sort the
collected rows by file name, then write the header line and one line per
row, each terminated by `"\n"`.  The result is the full text of the report
file; `.error ()` models an uncaught `TypeError` from `",".join(row)`. -/
def labelFiles (cfg : Config) (labels : List Row) : Except Unit String :=
  match mapExcept (renderRow cfg) (sortLabels labels) with
  | .error e => .error e
  | .ok lines =>
    .ok (String.join ((headerLine cfg :: lines).map (fun l => l ++ "\n")))

/-- The run environment: whether the input path is a directory
(label.py line 42), and the files found by the walk. -/
structure RunEnv where
  inputIsDir : Bool
  files : List FileEntry

/-- Model of `get_all_files_in_directory` (label.py 75-85): keep exactly the files
whose name ends in `.json`. -/
def discovered (env : RunEnv) : List FileEntry :=
  env.files.filter (fun f => strEndsWith f.base ".json")

/-- How a run of the script ends: `sys.exit(1)` after the directory check,
an uncaught exception (crash with a traceback), or normal completion with
the written report text. -/
inductive RunOutcome where
  | configExit : String → RunOutcome
  | crash : RunOutcome
  | finished : String → RunOutcome

/-- Model of `Labeler.__init__` plus `run` (label.py 35-73): a non-directory input
exits immediately with the printed message before anything is processed;
otherwise every discovered file is processed and the report is written.
The second component is the list of per-file processing outcomes (empty
when the directory check fails). -/
def run (cfg : Config) (env : RunEnv) : RunOutcome × List ProcOut :=
  if env.inputIsDir = false then
    (.configExit "Error: Input path must be a directory.", [])
  else
    let results := (discovered env).map (process_json cfg)
    match labelFiles cfg (results.map (fun r => r.row)) with
    | .ok table => (.finished table, results)
    | .error _ => (.crash, results)

/-- Modelled from the spec (§4.5): a second renderer that follows the
spec's words — "one line per row with the same column order, each value
empty-string if absent, numeric values rendered as decimal text" — used
only to compare the code's renderer against the specified one. -/
def specCell : Option Json → String
  | none => ""
  | some (.str s) => s
  | some (.num n) => toString n
  | some _ => ""

/-- Modelled from the spec (§4.5): the family cell, empty string if absent. -/
def specFamCell : Option String → String
  | none => ""
  | some s => s

/-- Modelled from the spec (§4.5): one report line in the fixed canonical
column order, cells joined by commas. -/
def specRenderRow (cfg : Config) (r : Row) : String :=
  String.intercalate "," ([r.file_name]
    ++ (if cfg.family then [specFamCell r.family] else [])
    ++ (if cfg.cpu then [specCell r.cpu] else [])
    ++ (if cfg.first_seen then [specCell r.first_seen] else [])
    ++ (if cfg.size then [specCell r.size] else [])
    ++ (if cfg.md5 then [specCell r.md5] else []))

/-- Number of comma characters in a string (used to count the
comma-delimited cells of an emitted line: a reader of the line sees
`commaCount line + 1` cells). -/
def commaCount (s : String) : Nat := s.data.count ','

/-- Extraction result of a single `try/except KeyError` block considered in
isolation: the looked-up value when the lookup succeeds, `None` otherwise. -/
def okValue : Except PyErr Json → Option Json
  | .ok v => some v
  | .error _ => none

/-- The value a requested field would get if its block ran independently of
the other blocks. -/
def indep (b : Bool) (e : Except PyErr Json) : Option Json :=
  if b then okValue e else none

/-- The enrichment outcomes that the spec calls failures of steps 1, 3 and
4: serialization returning nothing, subprocess non-zero exit or launch
failure, or stdout with no second whitespace token. -/
def enrichFailed (env : EnrichEnv) : Prop :=
  env.serializeOk = false ∨ env.subproc = .calledProcessError ∨
    env.subproc = .otherError ∨
    ∃ out, env.subproc = .ok out ∧ (pySplit out)[1]? = none

/-- Strict version of the sort-key relation: key-below and different key.
On a list with pairwise-distinct keys a `rowLe`-sorted list is also
`rowLtNe`-sorted, and `rowLtNe` is antisymmetric, which pins the sorted
list down uniquely. -/
def rowLtNe (a b : Row) : Prop := rowLe a b ∧ a.file_name ≠ b.file_name

/-! ### Concrete configurations, rows and environments used by the
counterexamples and witnesses. -/

/-- Configuration `--size`. -/
def cfgSizeOnly : Config := ⟨false, false, false, true, false⟩

/-- Configuration `--first_seen`. -/
def cfgFirstSeenOnly : Config := ⟨false, false, true, false, false⟩

/-- Configuration `--family --first_seen`. -/
def cfgFamilyFirstSeen : Config := ⟨true, false, true, false, false⟩

/-- Configuration `--family`. -/
def cfgFamilyOnly : Config := ⟨true, false, false, false, false⟩

/-- Configuration `--cpu --first_seen`. -/
def cfgCpuFirstSeen : Config := ⟨false, true, true, false, false⟩

/-- Configuration with all five toggles on. -/
def cfgAll : Config := ⟨true, true, true, true, true⟩

/-- An enrichment environment whose I/O steps all succeed but whose
subprocess raises an unexpected error. -/
def benignEnrich : EnrichEnv := ⟨true, true, true, .otherError⟩

/-- A parseable report whose `open(json_file + ".tmp", "w")` call fails. -/
def fileTmpOpenFail : FileEntry :=
  ⟨"d", "a.json", .ok (.obj [("first_seen", .str "2020")]), ⟨true, false, true, .otherError⟩⟩

/-- A parseable report whose `.tmp` artifact is created but whose
`tmp_file.write` call fails. -/
def fileTmpWriteFail : FileEntry :=
  ⟨"d", "a.json", .ok (.obj []), ⟨true, true, false, .otherError⟩⟩

/-- A parseable report whose enrichment I/O succeeds but whose `avclass`
subprocess exits non-zero. -/
def fileSubprocFail : FileEntry :=
  ⟨"d", "a.json", .ok (.obj [("md5", .str "aa")]), ⟨true, true, true, .calledProcessError⟩⟩

/-- A parseable report processed with `benignEnrich`. -/
def fileBenign : FileEntry := ⟨"d", "a.json", .ok (.obj []), benignEnrich⟩

/-- A record carrying only `size` and `md5`. -/
def dataSizeMd5 : Json := .obj [("size", .num 10), ("md5", .str "aa")]

/-- Two result rows with the same file identifier `"x"` (two `x.json`
files in different subdirectories) and different sizes. -/
def rowDupA : Row := ⟨"x", none, none, none, some (.num 1), none⟩

/-- See `rowDupA`. -/
def rowDupB : Row := ⟨"x", none, none, none, some (.num 2), none⟩

/-- A row with file identifier `"a"`. -/
def rowA : Row := ⟨"a", none, none, none, some (.num 1), none⟩

/-- A row with file identifier `"b"`. -/
def rowB : Row := ⟨"b", none, none, none, some (.num 2), none⟩

/-- A record where `additional_info` is present but not an object while
`first_seen` is present: the CPU lookup raises `TypeError`, not
`KeyError`. -/
def dataMixed : Json := .obj [("additional_info", .str "x"), ("first_seen", .str "2020")]

/-- A directory containing a single malformed `.json` file. -/
def envParseFail : RunEnv := ⟨true, [⟨"d", "b.json", .error .parseError, benignEnrich⟩]⟩

/-- A directory containing a single well-formed report whose `first_seen`
value is the number 5. -/
def envNumericFirstSeen : RunEnv :=
  ⟨true, [⟨"d", "a.json", .ok (.obj [("first_seen", .num 5)]), benignEnrich⟩]⟩

/-- A directory with one malformed and one well-formed report. -/
def envGoodBad : RunEnv :=
  ⟨true, [⟨"d", "b.json", .error .parseError, benignEnrich⟩,
          ⟨"d", "a.json", .ok (.obj [("size", .num 5)]), benignEnrich⟩]⟩

/-- An input path that is not a directory. -/
def envNotDir : RunEnv := ⟨false, [⟨"d", "a.json", .ok (.obj []), benignEnrich⟩]⟩

/-- A row mixing a present family, string CPU and first_seen values, a
zero size and an empty md5 string. -/
def rowMixedW : Row :=
  ⟨"f", some "fam", some (.str "EM_386"), some (.str "2020"), some (.num 0), some (.str "")⟩

/-- A row whose md5 value contains a comma, with every other field also
populated: a family string, a comma-bearing CPU string, an empty
first_seen string and an array-valued size. -/
def rowCommaW : Row :=
  ⟨"f", some "fa,m", some (.str "cp,u"), some (.str ""), some (.arr [.num 1]), some (.str "m,d5")⟩

/-! ### Order lemmas for the sort key -/

theorem charListLe_refl (a : List Char) : charListLe a a = true := by
  induction a with
  | nil => rfl
  | cons c cs ih => simp [charListLe, lt_self_iff_false, ih]

theorem charListLe_total (a b : List Char) :
    charListLe a b = true ∨ charListLe b a = true := by
  induction a generalizing b with
  | nil => left; rfl
  | cons x xs ih =>
    cases b with
    | nil => right; rfl
    | cons y ys =>
      rcases lt_trichotomy x y with h | h | h
      · left; simp [charListLe, h]
      · subst h
        rcases ih ys with h | h
        · left; simp [charListLe, lt_self_iff_false, h]
        · right; simp [charListLe, lt_self_iff_false, h]
      · right; simp [charListLe, h]

theorem charListLe_trans : ∀ {a b c : List Char},
    charListLe a b = true → charListLe b c = true → charListLe a c = true
  | [], _, _, _, _ => rfl
  | _ :: _, [], _, hab, _ => by simp [charListLe] at hab
  | _ :: _, _ :: _, [], _, hbc => by simp [charListLe] at hbc
  | x :: xs, y :: ys, z :: zs, hab, hbc => by
    by_cases hxy : x < y
    · by_cases hyz : y < z
      · simp [charListLe, lt_trans hxy hyz]
      · by_cases hzy : z < y
        · simp [charListLe, hyz, hzy] at hbc
        · have : y = z := le_antisymm (le_of_not_lt hzy) (le_of_not_lt hyz)
          subst this
          simp [charListLe, hxy]
    · by_cases hyx : y < x
      · simp [charListLe, hxy, hyx] at hab
      · have : x = y := le_antisymm (le_of_not_lt hyx) (le_of_not_lt hxy)
        subst this
        by_cases hyz : x < z
        · simp [charListLe, hyz]
        · by_cases hzy : z < x
          · simp [charListLe, hyz, hzy] at hbc
          · have : x = z := le_antisymm (le_of_not_lt hzy) (le_of_not_lt hyz)
            subst this
            simp [charListLe, lt_self_iff_false] at hab hbc ⊢
            exact charListLe_trans hab hbc

theorem charListLe_antisymm : ∀ {a b : List Char},
    charListLe a b = true → charListLe b a = true → a = b
  | [], [], _, _ => rfl
  | [], _ :: _, _, hba => by simp [charListLe] at hba
  | _ :: _, [], hab, _ => by simp [charListLe] at hab
  | x :: xs, y :: ys, hab, hba => by
    by_cases hxy : x < y
    · simp [charListLe, hxy, lt_asymm hxy] at hba
    · by_cases hyx : y < x
      · simp [charListLe, hxy, hyx] at hab
      · have hx : x = y := le_antisymm (le_of_not_lt hyx) (le_of_not_lt hxy)
        subst hx
        simp [charListLe, lt_self_iff_false] at hab hba
        rw [charListLe_antisymm hab hba]

instance : IsTotal Row rowLe :=
  ⟨fun a b => charListLe_total a.file_name.data b.file_name.data⟩

instance : IsTrans Row rowLe :=
  ⟨fun _ _ _ hab hbc => charListLe_trans hab hbc⟩

instance : IsAntisymm Row rowLtNe :=
  ⟨fun a b h1 h2 =>
    (h1.2 (String.toList_inj.mp (charListLe_antisymm h1.1 h2.1))).elim⟩

/-- Stable sorting of two permutations of the same rows gives the same
list as soon as the file identifiers are pairwise distinct. -/
theorem sortLabels_eq_of_perm (l1 l2 : List Row) (hp : l1.Perm l2)
    (hd : (l1.map (fun r => r.file_name)).Nodup) :
    sortLabels l1 = sortLabels l2 := by
  have hp1 := List.perm_insertionSort rowLe l1
  have hp2 := List.perm_insertionSort rowLe l2
  have hps : (sortLabels l1).Perm (sortLabels l2) :=
    hp1.trans (hp.trans hp2.symm)
  have hs1 : List.Sorted rowLe (sortLabels l1) := List.sorted_insertionSort rowLe l1
  have hs2 : List.Sorted rowLe (sortLabels l2) := List.sorted_insertionSort rowLe l2
  have hd1 : ((sortLabels l1).map (fun r => r.file_name)).Nodup :=
    ((hp1.map (fun r => r.file_name)).nodup_iff).mpr hd
  have hd2 : ((sortLabels l2).map (fun r => r.file_name)).Nodup :=
    ((hp2.map (fun r => r.file_name)).nodup_iff).mpr
      (((hp.map (fun r => r.file_name)).nodup_iff).mp hd)
  have hne1 : (sortLabels l1).Pairwise (fun a b => a.file_name ≠ b.file_name) :=
    List.pairwise_map.mp hd1
  have hne2 : (sortLabels l2).Pairwise (fun a b => a.file_name ≠ b.file_name) :=
    List.pairwise_map.mp hd2
  have hst1 : List.Sorted rowLtNe (sortLabels l1) := hs1.and hne1
  have hst2 : List.Sorted rowLtNe (sortLabels l2) := hs2.and hne2
  exact List.eq_of_perm_of_sorted hps hst1 hst2

/-! ### Helper lemmas for rendering and counting -/

theorem mapExcept_ok_length {f : α → Except ε β} :
    ∀ {l : List α} {res : List β}, mapExcept f l = .ok res → res.length = l.length := by
  intro l
  induction l with
  | nil => intro res h; cases h; rfl
  | cons a as ih =>
    intro res h
    unfold mapExcept at h
    cases hfa : f a with
    | error e => rw [hfa] at h; cases h
    | ok b =>
      rw [hfa] at h
      cases hrest : mapExcept f as with
      | error e => rw [hrest] at h; cases h
      | ok bs => rw [hrest] at h; cases h; simp [ih hrest]

theorem commaCount_append (a b : String) :
    commaCount (a ++ b) = commaCount a + commaCount b := by
  simp [commaCount, String.data_append]

theorem commaCount_intercalate_go (as : List String) (acc : String) :
    commaCount (String.intercalate.go acc "," as) =
      commaCount acc + as.length + (as.map commaCount).sum := by
  induction as generalizing acc with
  | nil => simp [String.intercalate.go]
  | cons a as ih =>
    rw [String.intercalate.go, ih, commaCount_append, commaCount_append]
    have hc : commaCount "," = 1 := rfl
    rw [hc]
    simp
    omega

theorem commaCount_intercalate (a : String) (as : List String) :
    commaCount (String.intercalate "," (a :: as)) =
      commaCount a + as.length + (as.map commaCount).sum := by
  rw [String.intercalate, commaCount_intercalate_go]

theorem familyStep_not_aborted (path : String) (env : EnrichEnv)
    (h : env.serializeOk = false ∨ (env.tmpOpenOk = true ∧ env.tmpWriteOk = true)) :
    (familyStep path env).aborted = false := by
  rcases env with ⟨s, o, w, sp⟩
  rcases h with h | ⟨h1, h2⟩
  · simp only at h
    simp [familyStep, h]
  · simp only at h1 h2
    subst h1; subst h2
    cases s
    · simp [familyStep]
    · cases sp with
      | ok out =>
        cases hget : (pySplit out)[1]? <;> simp [familyStep, hget]
      | calledProcessError => simp [familyStep]
      | otherError => simp [familyStep]

theorem familyStep_family_none (path : String) (env : EnrichEnv)
    (h : enrichFailed env) : (familyStep path env).family = none := by
  rcases env with ⟨s, o, w, sp⟩
  rcases h with h | h | h | ⟨out, hsp, hget⟩
  · simp only at h
    simp [familyStep, h]
  · simp only at h
    subst h
    cases s <;> cases o <;> cases w <;> simp [familyStep]
  · simp only at h
    subst h
    cases s <;> cases o <;> cases w <;> simp [familyStep]
  · simp only at hsp
    subst hsp
    cases s <;> cases o <;> cases w <;> simp [familyStep, hget]

theorem fieldStep_indep (b : Bool) (e : Except PyErr Json)
    (h : b = true → e ≠ .error .typeError) :
    fieldStep b e = (indep b e, false) := by
  cases b
  · simp [fieldStep, indep]
  · cases e with
    | ok v => simp [fieldStep, indep, okValue]
    | error pe =>
      cases pe
      · simp [fieldStep, indep, okValue]
      · exact absurd rfl (h rfl)

theorem pyCell_str (o : Option Json) (h : ∀ j, o = some j → ∃ s, j = .str s) :
    pyCell o = .ok (specCell o) := by
  cases o with
  | none => rfl
  | some v =>
    obtain ⟨s, rfl⟩ := h v rfl
    by_cases hs : s = ""
    · subst hs; rfl
    · simp [pyCell, pyTruthy, specCell, hs]

theorem sizeCell_num (o : Option Json) (h : ∀ j, o = some j → ∃ n, j = .num n) :
    sizeCell o = specCell o := by
  cases o with
  | none => rfl
  | some v => obtain ⟨n, rfl⟩ := h v rfl; rfl

theorem pyCell_str_val (s : String) : pyCell (some (.str s)) = .ok s := by
  by_cases h : s = ""
  · subst h; rfl
  · simp [pyCell, pyTruthy, h]

theorem renderCells_explicit (cfg : Config) (r : Row) (cC cF cM : String)
    (hc : pyCell r.cpu = .ok cC) (hf : pyCell r.first_seen = .ok cF)
    (hm : pyCell r.md5 = .ok cM) :
    renderCells cfg r = .ok
      ([r.file_name]
        ++ (if cfg.family then [famCell r.family] else [])
        ++ (if cfg.cpu then [cC] else [])
        ++ (if cfg.first_seen then [cF] else [])
        ++ (if cfg.size then [sizeCell r.size] else [])
        ++ (if cfg.md5 then [cM] else [])) := by
  obtain ⟨b1, b2, b3, b4, b5⟩ := cfg
  cases b2 <;> cases b3 <;> cases b5 <;> simp [renderCells, hc, hf, hm]

theorem commaCount_intercalate_ne (cells : List String) (h : cells ≠ []) :
    commaCount (String.intercalate "," cells) =
      (cells.length - 1) + (cells.map commaCount).sum := by
  cases cells with
  | nil => exact absurd rfl h
  | cons a as =>
    rw [commaCount_intercalate]
    simp only [List.length_cons, List.map_cons, List.sum_cons]
    omega

theorem header_length_pos (cfg : Config) : 1 ≤ (header cfg).length := by
  simp [header, List.length_append]

/-! ### The claims -/

/-- C1, counterexample: on a directory containing a single malformed
`b.json` the claim requires the table to contain zero data rows, but the
run finishes with a table that contains the data row `b,` (file identifier
with every requested cell empty). -/
theorem c1_counterexample :
    (envParseFail.files.map (fun f => f.content)) = [.error .parseError] ∧
    (run cfgSizeOnly envParseFail).fst = .finished "file_name,size\nb,\n" :=
  ⟨rfl, rfl⟩

/-- C1 (amended): the output table contains exactly one row per discovered
`.json` file regardless of whether the file parses; a file that fails to
read or parse still yields a row, with all requested field cells empty,
and the failure is recorded in the error log. -/
theorem c1_one_row_per_discovered_file (cfg : Config) (env : RunEnv) (lines : List String)
    (h : mapExcept (renderRow cfg)
      (sortLabels (((discovered env).map (process_json cfg)).map (fun r => r.row))) =
      .ok lines) :
    lines.length = (discovered env).length ∧
    ∀ f ∈ discovered env, ∀ e, f.content = .error e →
      (process_json cfg f).row = ⟨f.base.dropRight 5, none, none, none, none, none⟩ ∧
      (process_json cfg f).log ≠ [] := by
  constructor
  · rw [mapExcept_ok_length h, sortLabels, List.length_insertionSort]
    simp
  · intro f _ e he
    cases e
    · exact ⟨by simp [process_json, he], by simp [process_json, he]⟩
    · exact ⟨by simp [process_json, he], by simp [process_json, he]⟩

/-- Witness for C1 at the directory `envGoodBad` (one malformed and one
well-formed file): the table body has exactly two lines, `a,5` and `b,`. -/
theorem c1_one_row_per_discovered_file_witness :
    (["a,5", "b,"] : List String).length = (discovered envGoodBad).length ∧
    ∀ f ∈ discovered envGoodBad, ∀ e, f.content = .error e →
      (process_json cfgSizeOnly f).row = ⟨f.base.dropRight 5, none, none, none, none, none⟩ ∧
      (process_json cfgSizeOnly f).log ≠ [] :=
  c1_one_row_per_discovered_file cfgSizeOnly envGoodBad ["a,5", "b,"] rfl

/-- C2, counterexample: with family labeling enabled, a failure of the
`open(json_file + ".tmp", "w")` step (one of the enrichment steps the
claim lists) does not only empty the family field: it also empties the
`first_seen` field, which the same file yields when family labeling is
off. -/
theorem c2_counterexample :
    fileTmpOpenFail.enrich.tmpOpenOk = false ∧
    (process_json cfgFamilyFirstSeen fileTmpOpenFail).row.first_seen = none ∧
    (process_json cfgFirstSeenOnly fileTmpOpenFail).row.first_seen = some (.str "2020") :=
  ⟨rfl, rfl, rfl⟩

/-- C2 (amended): failures of canonical serialization, subprocess launch,
non-zero exit, or output-token parse degrade to an empty family and leave
the other requested fields exactly as a family-disabled run extracts them;
however a failure creating or writing the temporary artifact raises out of
the enrichment block and additionally leaves every other requested field
of that file empty (the raised error is still caught per-file, so the run
continues). -/
theorem c2_enrichment_isolation (cfg : Config) (f : FileEntry) (data : Json)
    (hfam : cfg.family = true) (hc : f.content = .ok data)
    (henv : f.enrich.serializeOk = false ∨
      (f.enrich.tmpOpenOk = true ∧ f.enrich.tmpWriteOk = true)) :
    ((process_json cfg f).row.cpu = (process_json { cfg with family := false } f).row.cpu ∧
      (process_json cfg f).row.first_seen =
        (process_json { cfg with family := false } f).row.first_seen ∧
      (process_json cfg f).row.size = (process_json { cfg with family := false } f).row.size ∧
      (process_json cfg f).row.md5 = (process_json { cfg with family := false } f).row.md5) ∧
    (enrichFailed f.enrich → (process_json cfg f).row.family = none) := by
  obtain ⟨cf, cc, cfs, cz, cm⟩ := cfg
  simp only at hfam
  subst hfam
  have hab := familyStep_not_aborted f.path f.enrich henv
  have hext : extractFields ⟨true, cc, cfs, cz, cm⟩ data =
      extractFields ⟨false, cc, cfs, cz, cm⟩ data := rfl
  constructor
  · simp [process_json, hc, hab, hext]
  · intro hfail
    simp [process_json, hc, hab, familyStep_family_none f.path f.enrich hfail]

/-- Witness for C2: a file whose subprocess exits non-zero keeps its `md5`
value and gets an empty family. -/
theorem c2_enrichment_isolation_witness :
    ((process_json cfgAll fileSubprocFail).row.cpu =
        (process_json { cfgAll with family := false } fileSubprocFail).row.cpu ∧
      (process_json cfgAll fileSubprocFail).row.first_seen =
        (process_json { cfgAll with family := false } fileSubprocFail).row.first_seen ∧
      (process_json cfgAll fileSubprocFail).row.size =
        (process_json { cfgAll with family := false } fileSubprocFail).row.size ∧
      (process_json cfgAll fileSubprocFail).row.md5 =
        (process_json { cfgAll with family := false } fileSubprocFail).row.md5) ∧
    (enrichFailed fileSubprocFail.enrich →
      (process_json cfgAll fileSubprocFail).row.family = none) :=
  c2_enrichment_isolation cfgAll fileSubprocFail (.obj [("md5", .str "aa")]) rfl rfl
    (Or.inr ⟨rfl, rfl⟩)

/-- C3, counterexample: the temporary artifact is created
(`open(json_file + ".tmp", "w")` succeeds) but the write to it fails; the
`try/finally` of lines 131-140 is never entered and the artifact is left
on disk after processing. -/
theorem c3_counterexample :
    fileTmpWriteFail.enrich.tmpOpenOk = true ∧
    (process_json cfgFamilyOnly fileTmpWriteFail).tmpLeft = true :=
  ⟨rfl, rfl⟩

/-- C3 (amended): whenever the temporary artifact is created and its
content successfully written, it is removed after the enrichment step
regardless of subprocess success, failure, or unexpected exception; only a
failure of the write to the just-created artifact can leave it behind. -/
theorem c3_tmp_artifact_removed (cfg : Config) (f : FileEntry) (data : Json)
    (hfam : cfg.family = true) (hc : f.content = .ok data)
    (h1 : f.enrich.serializeOk = true) (h2 : f.enrich.tmpOpenOk = true)
    (h3 : f.enrich.tmpWriteOk = true) :
    (process_json cfg f).tmpLeft = false := by
  obtain ⟨cf, cc, cfs, cz, cm⟩ := cfg
  simp only at hfam
  subst hfam
  rcases f with ⟨dir, base, content, ⟨s, o, w, sp⟩⟩
  simp only at hc h1 h2 h3
  subst h1; subst h2; subst h3; subst hc
  cases sp with
  | ok out => cases hget : (pySplit out)[1]? <;> simp [process_json, familyStep, hget]
  | calledProcessError => simp [process_json, familyStep]
  | otherError => simp [process_json, familyStep]

/-- Witness for C3: all enrichment I/O succeeds and the subprocess raises
an unexpected error; no artifact remains. -/
theorem c3_tmp_artifact_removed_witness :
    (process_json cfgFamilyOnly fileBenign).tmpLeft = false :=
  c3_tmp_artifact_removed cfgFamilyOnly fileBenign (.obj []) rfl rfl rfl rfl rfl

/-- C4, counterexample: in `dataMixed` the field `first_seen` is present,
but requesting CPU as well makes the CPU lookup raise `TypeError`
(`additional_info` is a string, not an object), which aborts the remaining
lookups: the `first_seen` cell comes out empty although the field exists. -/
theorem c4_counterexample :
    dataMixed.getItem "first_seen" = .ok (.str "2020") ∧
    (extractFields cfgCpuFirstSeen dataMixed).1.first_seen = none :=
  ⟨rfl, rfl⟩

/-- C4 (amended): as long as every requested lookup fails with at most
`KeyError` (the only exception class the per-field handlers catch), the
fields are extracted independently: each one equals its isolated lookup
result, and a missing field yields an empty value for that column only.  A
lookup that raises a non-`KeyError` (subscripting a non-object along the
path) instead aborts all later lookups of the same record. -/
theorem c4_field_independence (cfg : Config) (data : Json)
    (hc : cfg.cpu = true → cpuLookup data ≠ .error .typeError)
    (hf : cfg.first_seen = true → data.getItem "first_seen" ≠ .error .typeError)
    (hs : cfg.size = true → data.getItem "size" ≠ .error .typeError)
    (hm : cfg.md5 = true → data.getItem "md5" ≠ .error .typeError) :
    extractFields cfg data =
      (⟨indep cfg.cpu (cpuLookup data), indep cfg.first_seen (data.getItem "first_seen"),
        indep cfg.size (data.getItem "size"), indep cfg.md5 (data.getItem "md5")⟩, false) := by
  simp [extractFields, fieldStep_indep _ _ hc, fieldStep_indep _ _ hf,
    fieldStep_indep _ _ hs, fieldStep_indep _ _ hm]

/-- Witness for C4: a record with only `size` and `md5`; the CPU and
`first_seen` lookups fail with `KeyError` and the other two succeed
independently. -/
theorem c4_field_independence_witness :
    extractFields cfgAll dataSizeMd5 =
      (⟨indep true (cpuLookup dataSizeMd5), indep true (dataSizeMd5.getItem "first_seen"),
        indep true (dataSizeMd5.getItem "size"), indep true (dataSizeMd5.getItem "md5")⟩,
        false) :=
  c4_field_independence cfgAll dataSizeMd5 (fun _ h => by cases h) (fun _ h => by cases h)
    (fun _ h => by cases h) (fun _ h => by cases h)

/-- C5, counterexample: two rows with the same file identifier `"x"` but
different sizes.  Both collection orders are permutations of the same
result set, yet the stable sort keeps the collection order of the
equal-key rows, so the emitted sequences differ. -/
theorem c5_counterexample :
    ([rowDupA, rowDupB] : List Row).Perm [rowDupB, rowDupA] ∧
    sortLabels [rowDupA, rowDupB] ≠ sortLabels [rowDupB, rowDupA] := by
  refine ⟨List.Perm.swap rowDupB rowDupA [], ?_⟩
  intro h
  have e1 : sortLabels [rowDupA, rowDupB] = [rowDupA, rowDupB] := rfl
  have e2 : sortLabels [rowDupB, rowDupA] = [rowDupB, rowDupA] := rfl
  rw [e1, e2] at h
  have h1 : rowDupA = rowDupB := (List.cons.injEq _ _ _ _).mp h |>.1
  have h2 := congrArg Row.size h1
  simp [rowDupA, rowDupB] at h2

/-- C5 (amended): when the collected rows carry pairwise-distinct file
identifiers, the assembler emits them sorted lexicographically by the
identifier string and the emitted sequence is identical across all
collection orders; with duplicate identifiers the sort is merely stable,
so equal-identifier rows follow the collection order. -/
theorem c5_deterministic_sorted_output (l1 l2 : List Row) (hp : l1.Perm l2)
    (hd : (l1.map (fun r => r.file_name)).Nodup) :
    sortLabels l1 = sortLabels l2 ∧ (sortLabels l1).Sorted rowLe :=
  ⟨sortLabels_eq_of_perm l1 l2 hp hd, List.sorted_insertionSort rowLe l1⟩

/-- Witness for C5 on two rows with distinct identifiers collected in the
two possible orders. -/
theorem c5_deterministic_sorted_output_witness :
    sortLabels [rowA, rowB] = sortLabels [rowB, rowA] ∧
    (sortLabels [rowA, rowB]).Sorted rowLe :=
  c5_deterministic_sorted_output [rowA, rowB] [rowB, rowA]
    (List.Perm.swap rowB rowA []) (by decide)

/-- C6, counterexample: a numeric `first_seen` value is not rendered as
decimal text — it survives `label[3] or ''` as a number and makes
`",".join(row)` raise `TypeError`, aborting the report write. -/
theorem c6_counterexample :
    renderRow cfgFirstSeenOnly ⟨"a", none, none, some (.num 5), none, none⟩ = .error () :=
  rfl

/-- C6 (amended): each cell follows the header's column order and an
absent field value is rendered as the empty string; a numeric `size` value
is rendered as decimal text; in the family, CPU, first_seen and md5
columns string values are rendered verbatim, while a truthy non-string
(for example numeric) value is not rendered at all — it raises a
`TypeError` that aborts the report write.  Formally: on rows whose present
CPU/first_seen/md5 values are strings and whose size is numeric, the
code's renderer agrees with the spec's renderer. -/
theorem c6_render_follows_spec (cfg : Config) (r : Row)
    (hc : ∀ j, r.cpu = some j → ∃ s, j = .str s)
    (hf : ∀ j, r.first_seen = some j → ∃ s, j = .str s)
    (hm : ∀ j, r.md5 = some j → ∃ s, j = .str s)
    (hs : ∀ j, r.size = some j → ∃ n, j = .num n) :
    renderRow cfg r = .ok (specRenderRow cfg r) := by
  have hcpu := pyCell_str r.cpu hc
  have hfs := pyCell_str r.first_seen hf
  have hmd := pyCell_str r.md5 hm
  have hsz := sizeCell_num r.size hs
  have hfam : famCell r.family = specFamCell r.family := by cases r.family <;> rfl
  obtain ⟨cf, cc, cfs2, cz, cm⟩ := cfg
  cases cf <;> cases cc <;> cases cfs2 <;> cases cz <;> cases cm <;>
    simp [renderRow, renderCells, specRenderRow, hcpu, hfs, hmd, hsz, hfam, Except.map]

/-- Witness for C6 on a row with all five fields present (string CPU and
first_seen, zero size, empty md5 string). -/
theorem c6_render_follows_spec_witness :
    renderRow cfgAll rowMixedW = .ok (specRenderRow cfgAll rowMixedW) :=
  c6_render_follows_spec cfgAll rowMixedW
    (fun _ h => ⟨"EM_386", (Option.some.inj h).symm⟩)
    (fun _ h => ⟨"2020", (Option.some.inj h).symm⟩)
    (fun _ h => ⟨"", (Option.some.inj h).symm⟩)
    (fun _ h => ⟨0, (Option.some.inj h).symm⟩)

/-- C7, counterexample: the input path is a directory, yet the run still
terminates the process — the record's truthy numeric `first_seen` value
raises an uncaught `TypeError` while the report is written, so the
configuration error is not the only fatal condition. -/
theorem c7_counterexample :
    envNumericFirstSeen.inputIsDir = true ∧
    (run cfgFirstSeenOnly envNumericFirstSeen).fst = .crash :=
  ⟨rfl, rfl⟩

/-- C7 (amended): a configuration error (input path missing or not a
directory) terminates the process immediately with a visible message
before any file is processed; it is however not the only fatal condition,
since an uncaught rendering error also terminates the process. -/
theorem c7_config_error_exits_before_processing (cfg : Config) (env : RunEnv)
    (h : env.inputIsDir = false) :
    run cfg env = (.configExit "Error: Input path must be a directory.", []) := by
  simp [run, h]

/-- Witness for C7: a non-directory input exits with the message and an
empty list of processed files. -/
theorem c7_config_error_exits_before_processing_witness :
    run cfgAll envNotDir = (.configExit "Error: Input path must be a directory.", []) :=
  c7_config_error_exits_before_processing cfgAll envNotDir rfl

/-- C8, counterexample: two runs on the same unchanged directory (two
`x.json` files in different subdirectories) whose tasks complete in
different orders produce different report files. -/
theorem c8_counterexample :
    ([rowDupA, rowDupB] : List Row).Perm [rowDupB, rowDupA] ∧
    labelFiles cfgSizeOnly [rowDupA, rowDupB] = .ok "file_name,size\nx,1\nx,2\n" ∧
    labelFiles cfgSizeOnly [rowDupB, rowDupA] = .ok "file_name,size\nx,2\nx,1\n" ∧
    labelFiles cfgSizeOnly [rowDupA, rowDupB] ≠ labelFiles cfgSizeOnly [rowDupB, rowDupA] := by
  refine ⟨List.Perm.swap rowDupB rowDupA [], rfl, rfl, ?_⟩
  intro h
  have e1 : labelFiles cfgSizeOnly [rowDupA, rowDupB] =
    .ok "file_name,size\nx,1\nx,2\n" := rfl
  have e2 : labelFiles cfgSizeOnly [rowDupB, rowDupA] =
    .ok "file_name,size\nx,2\nx,1\n" := rfl
  rw [e1, e2] at h
  injection h with h'
  exact absurd h' (by decide)

/-- C8 (amended): two runs of the pipeline on an unchanged input directory
with identical configuration produce byte-identical output tables provided
the discovered `.json` files have pairwise-distinct file identifiers
(basenames without extension); the two runs differ only in the completion
order of the collected rows, modelled as a permutation. -/
theorem c8_idempotent_output (cfg : Config) (l1 l2 : List Row) (hp : l1.Perm l2)
    (hd : (l1.map (fun r => r.file_name)).Nodup) :
    labelFiles cfg l1 = labelFiles cfg l2 := by
  unfold labelFiles
  rw [sortLabels_eq_of_perm l1 l2 hp hd]

/-- Witness for C8 on two distinct-identifier rows collected in the two
possible orders. -/
theorem c8_idempotent_output_witness :
    labelFiles cfgSizeOnly [rowA, rowB] = labelFiles cfgSizeOnly [rowB, rowA] :=
  c8_idempotent_output cfgSizeOnly [rowA, rowB] [rowB, rowA]
    (List.Perm.swap rowB rowA []) (by decide)

/-- C9 (confirmed): for every extracted field value in any requested
column — family, CPU, first_seen, size or md5 — that itself contains a
comma, on any row the script can emit (the CPU/first_seen/md5 cells must
render without a `TypeError` for a line to be written at all, which the
`pyCell ... = .ok ...` hypotheses state), the value appears whole as one
cell of the emitted line with no quoting or escaping: the line is exactly
the comma-join of the header-many cells, the value is one of those cells,
the line's comma count is the cell-separator count plus every comma of
every cell value, and therefore a reader of the line sees more
comma-delimited cells than the header declares columns. -/
theorem c9_comma_values_verbatim (cfg : Config) (r : Row) (s cC cF cM : String)
    (hc : pyCell r.cpu = .ok cC) (hf : pyCell r.first_seen = .ok cF)
    (hm : pyCell r.md5 = .ok cM)
    (hcol :
      (cfg.family = true ∧ r.family = some s) ∨
      (cfg.cpu = true ∧ r.cpu = some (.str s)) ∨
      (cfg.first_seen = true ∧ r.first_seen = some (.str s)) ∨
      (cfg.size = true ∧ r.size = some (.str s)) ∨
      (cfg.md5 = true ∧ r.md5 = some (.str s)))
    (hs : 1 ≤ commaCount s) :
    ∃ cells, renderCells cfg r = .ok cells ∧
      renderRow cfg r = .ok (String.intercalate "," cells) ∧
      cells.length = (header cfg).length ∧
      s ∈ cells ∧
      commaCount (String.intercalate "," cells) =
        ((header cfg).length - 1) + (cells.map commaCount).sum ∧
      (header cfg).length < commaCount (String.intercalate "," cells) + 1 := by
  obtain ⟨b1, b2, b3, b4, b5⟩ := cfg
  dsimp only at hcol
  have hex := renderCells_explicit ⟨b1, b2, b3, b4, b5⟩ r cC cF cM hc hf hm
  obtain ⟨cells, hcells⟩ : ∃ cells,
      renderCells ⟨b1, b2, b3, b4, b5⟩ r = .ok cells := ⟨_, hex⟩
  have hdef := Except.ok.inj (hcells.symm.trans hex)
  have hlen : cells.length = (header ⟨b1, b2, b3, b4, b5⟩).length := by
    rw [hdef]
    cases b1 <;> cases b2 <;> cases b3 <;> cases b4 <;> cases b5 <;> simp [header]
  have hmem : s ∈ cells := by
    rw [hdef]
    rcases hcol with ⟨hb, hv⟩ | ⟨hb, hv⟩ | ⟨hb, hv⟩ | ⟨hb, hv⟩ | ⟨hb, hv⟩
    · subst hb; simp [hv, famCell]
    · rw [hv, pyCell_str_val] at hc
      have h' := Except.ok.inj hc
      subst h'; subst hb; simp
    · rw [hv, pyCell_str_val] at hf
      have h' := Except.ok.inj hf
      subst h'; subst hb; simp
    · subst hb; simp [hv, sizeCell, pyStr]
    · rw [hv, pyCell_str_val] at hm
      have h' := Except.ok.inj hm
      subst h'; subst hb; simp
  have hne : cells ≠ [] := by
    intro hcon
    rw [hdef] at hcon
    simp at hcon
  have hcnt := commaCount_intercalate_ne cells hne
  have hsum : commaCount s ≤ (cells.map commaCount).sum :=
    List.le_sum_of_mem (List.mem_map_of_mem commaCount hmem)
  have hpos := header_length_pos ⟨b1, b2, b3, b4, b5⟩
  exact ⟨cells, hcells, by rw [renderRow, hcells]; rfl, hlen, hmem,
    by rw [hcnt, hlen], by rw [hcnt]; omega⟩

/-- Witness for C9: all columns requested, a row with every field
populated (comma-bearing family, CPU and md5 strings, an empty first_seen
string, an array-valued size), applied to the md5 value `m,d5`. -/
theorem c9_comma_values_verbatim_witness :
    ∃ cells, renderCells cfgAll rowCommaW = .ok cells ∧
      renderRow cfgAll rowCommaW = .ok (String.intercalate "," cells) ∧
      cells.length = (header cfgAll).length ∧
      "m,d5" ∈ cells ∧
      commaCount (String.intercalate "," cells) =
        ((header cfgAll).length - 1) + (cells.map commaCount).sum ∧
      (header cfgAll).length < commaCount (String.intercalate "," cells) + 1 :=
  c9_comma_values_verbatim cfgAll rowCommaW "m,d5" "cp,u" "" "m,d5" rfl rfl rfl
    (Or.inr (Or.inr (Or.inr (Or.inr ⟨rfl, rfl⟩)))) (by decide)

/-- C10 (confirmed): in the family, CPU, first_seen and md5 columns a
present-but-falsy value (empty string, 0, False) renders exactly like an
absent one — the whole cell list equals that of the all-absent row — while
a present size of 0 renders as the cell `"0"` because only the size column
is guarded by `is not None`. -/
theorem c10_falsy_values_render_empty (n : String) (v : Json)
    (hv : pyTruthy v = false) :
    renderCells cfgAll ⟨n, some "", some v, some v, none, some v⟩ =
      renderCells cfgAll ⟨n, none, none, none, none, none⟩ ∧
    renderCells cfgAll ⟨n, none, none, none, some (.num 0), none⟩ =
      .ok [n, "", "", "", "0", ""] := by
  constructor
  · simp [renderCells, pyCell, hv, famCell, cfgAll, sizeCell]
  · rfl

/-- Witness for C10 with the falsy value 0. -/
theorem c10_falsy_values_render_empty_witness :
    renderCells cfgAll ⟨"f", some "", some (.num 0), some (.num 0), none, some (.num 0)⟩ =
      renderCells cfgAll ⟨"f", none, none, none, none, none⟩ ∧
    renderCells cfgAll ⟨"f", none, none, none, some (.num 0), none⟩ =
      .ok ["f", "", "", "", "0", ""] :=
  c10_falsy_values_render_empty "f" (.num 0) rfl

end VTLabel
